import Mathlib

/-!
# Verification of the go-slo job-status persistence adapter

Shallow embedding of the Postgres repository adapter (`package repo`, the
`repoDB` type with `Open`, `Close`, `Add`, `GetByJobId`,
`GetByJobIdBusinessDate`, and the mapper functions `domainToDb`,
`dbToDomain`, `rowsToDomain`) together with the common error model
(`package common` / `internal`: `CommonError`, `NewCommonError`,
`WrapError`, and the error-code constants).

Modelling conventions:
* Go `time.Time` values are modelled at second precision as seconds
  since the epoch (`Time := Nat`); the domain works at second precision.
  `internal.Date` (a date-only newtype of `time.Time` at UTC midnight) is
  modelled as a day count (`Date := Nat`); the cast `time.Time(d)` and the
  method `d.AsTime()` are the same conversion day → midnight instant.
* `runtime.Caller` provenance (file name, function name, line number) is
  ambient in Go; each call site of `NewCommonError` / `WrapError` is
  modelled by a fixed `Provenance` value for that call site.
* Fallible Go functions returning `(T, error)` are modelled as
  `Except GoError T` when the `T` on the error path is a zero value never
  observed by callers, and as an explicit pair when callers can observe
  both components (the repository read operations).
-/

/-- Go `time.Time` at second precision: seconds since the Unix epoch (UTC). -/
abbrev Time := Nat

/-- `internal.Date`: a date-only value (UTC midnight), as days since the epoch. -/
abbrev Date := Nat

def secondsPerDay : Nat := 86400

/-- `internal.NewDateFromTime`: truncate an instant to its UTC calendar date. -/
def NewDateFromTime (t : Time) : Date := t / secondsPerDay

/-- `Date.AsTime`: the midnight instant of a date (also the Go cast `time.Time(d)`). -/
def Date.AsTime (d : Date) : Time := d * secondsPerDay

/-- `jobStatus.JobIdType` (a string newtype). -/
abbrev JobIdType := String

/-- `jobStatus.JobStatusCodeType` (a string newtype). -/
abbrev JobStatusCodeType := String

/-- The domain entity `jobStatus.JobStatus` with its seven fields. -/
structure JobStatus where
  ApplicationId : String
  JobId : JobIdType
  JobStatusCode : JobStatusCodeType
  JobStatusTimestamp : Time
  BusinessDate : Date
  RunId : String
  HostId : String
deriving DecidableEq, Repr

/-- The transfer object `dtoType.JobStatusDto` consumed by `NewJobStatus`. -/
structure JobStatusDto where
  AppId : String
  JobId : String
  JobSt : String
  JobTs : Time
  BusDt : Date
  RunId : String
  HstId : String
deriving DecidableEq, Repr

/-- A value sent to or scanned from the database: Postgres text columns are
strings, timestamp/date columns are instants. -/
inductive DbValue where
  | s (v : String)
  | t (v : Time)
deriving DecidableEq, Repr

/-- A row of the `JobStatus` table as the driver presents it: an ordered
list of column values. -/
abbrev Row := List DbValue

/-- A sparse query `FilterSet` (field name → optional value), the input of
the `GetByQuery` path. -/
structure FilterSet where
  applicationId : Option String
  jobId : Option String
  jobStatusCode : Option String
  jobStatusTimestamp : Option Time
  businessDate : Option Date
  runId : Option String
  hostId : Option String
deriving DecidableEq, Repr

/-- Call-site provenance captured by `runtime.Caller` in Go
(`FileName`, `FuncName`, `LineNo` of `CommonError`, and the text prefix
added by `WrapError`). -/
structure Provenance where
  fileName : String
  funcName : String
  lineNo : Nat
deriving DecidableEq, Repr

/-- The `Data any` payload of a `CommonError`, restricted to the payloads
the adapter actually attaches. -/
inductive ErrData where
  | noData
  | jobStatusData (js : JobStatus)
  | jobIdKey (jobId : String)
  | jobIdBusDtKey (jobId : String) (busDt : Date)
  | rowsData (rows : List Row)
  | dtoData (dto : JobStatusDto)
  | queryData (fs : FilterSet)
deriving DecidableEq, Repr

/-- The kinds of driver errors `pgx` can surface, as far as classification
(`PgErrToCommon`) distinguishes them. -/
inductive PgErrorKind where
  | uniqueViolation
  | connException
  | other
deriving DecidableEq, Repr

/-- A Postgres driver error. -/
structure PgError where
  kind : PgErrorKind
  msg : String
deriving DecidableEq, Repr

/-- Go `error` values as the adapter produces them: a primitive
`errors.New` error, a driver error, a `*CommonError` (provenance, code,
data, wrapped error — `common/errors.go`), or the light wrapper produced
by `WrapError`'s `fmt.Errorf("...<- %w", err)`. -/
inductive GoError where
  | primitive (msg : String)
  | pgErr (e : PgError)
  | commonError (prov : Provenance) (code : String) (data : ErrData) (err : GoError)
  | wrapped (prov : Provenance) (err : GoError)
deriving DecidableEq, Repr

/-- `CommonError.Unwrap` / the `fmt` wrapper's `Unwrap`: one step down the
error chain (`errors.Unwrap`). -/
def GoError.unwrap : GoError → Option GoError
  | .primitive _ => none
  | .pgErr _ => none
  | .commonError _ _ _ err => some err
  | .wrapped _ err => some err

/-- `NewCommonError(err, code, data)` (`common/errors.go`): build a
classified error recording the caller's provenance. -/
def NewCommonError (prov : Provenance) (err : GoError) (code : String) (data : ErrData) : GoError :=
  .commonError prov code data err

/-- `WrapError(err)` (`common/errors.go`): wrap an error with the calling
site's provenance (`fmt.Errorf("file::func::line <- %w", err)`), changing
nothing else.  (The `runtime.Caller` failure branch is not modelled:
provenance is always available here.) -/
def WrapError (prov : Provenance) (err : GoError) : GoError :=
  .wrapped prov err

/-- `errors.As(err, **CommonError)`: the first `CommonError` found along
the unwrap chain, as its (provenance, code, data) triple. -/
def firstCommon : GoError → Option (Provenance × String × ErrData)
  | .primitive _ => none
  | .pgErr _ => none
  | .commonError prov code data _ => some (prov, code, data)
  | .wrapped _ err => firstCommon err

/-- The classification kind of an error: the code of the first
`CommonError` along its unwrap chain. -/
def errCodeOf (e : GoError) : Option String :=
  (firstCommon e).map (fun x => x.2.1)

/-- The structured data payload of an error: the data of the first
`CommonError` along its unwrap chain. -/
def errDataOf (e : GoError) : Option ErrData :=
  (firstCommon e).map (fun x => x.2.2)

/-- All provenance entries recorded along an error chain, outermost first. -/
def provListOf : GoError → List Provenance
  | .primitive _ => []
  | .pgErr _ => []
  | .commonError prov _ _ err => prov :: provListOf err
  | .wrapped prov err => prov :: provListOf err

/-! Error-code constants from `common/errors.go`. -/

def ErrcdDomainProps : String := "PropsError"
def ErrcdAppUnexpected : String := "UnexpectedError"
def ErrcdRepoScan : String := "ScanError"
def ErrcdRepoDupeRow : String := "DuplicateRowError"
def ErrcdRepoConnException : String := "ConnectionExceptionError"
def ErrcdRepoOther : String := "RepoOtherError"
def ErrcdJsonDecode : String := "JsonDecodeError"

/-- Modelled from the spec: the `NoDsnError` configuration code used by
`repoDB.Open` (`internal.ErrcdRepoNoDsn` is referenced by the adapter but
its defining file is not in the sources). -/
def ErrcdRepoNoDsn : String := "NoDsnError"

/-- Modelled from the spec: the `InvalidQueryError` code the Predicate
Builder fails with when the usability rule is not satisfied (its defining
file is not in the sources). -/
def ErrcdRepoInvalidQuery : String := "InvalidQueryError"

/-- Modelled from the spec: `PgErrToCommon` (`common/utils.go`, not in the
sources) classifies a driver error into the common taxonomy:
constraint violation → `DuplicateRowError`, connection failure →
`ConnectionExceptionError`, anything unrecognized → `RepoOtherError`. -/
def PgErrToCommon (e : PgError) : String :=
  match e.kind with
  | .uniqueViolation => ErrcdRepoDupeRow
  | .connException => ErrcdRepoConnException
  | .other => ErrcdRepoOther

/-- Provenance of a call site inside the repo adapter source file, as
`runtime.Caller` would report it. -/
def callerProv (funcName : String) (lineNo : Nat) : Provenance :=
  ⟨"repoDbSqlPgx.go", funcName, lineNo⟩

/-! ## Domain construction (`jobStatus.NewJobStatus`) -/

/-- Modelled from the spec: the fixed valid-code set for `jobStatusCode`
(`jobStatus/domain.go` is not in the sources; the spec's scenario uses
`START`). -/
def validJobStatusCodes : List String := ["START", "RUN", "END"]

/-- Modelled from the spec: the bound on string field lengths ("bounded
length"; the spec fixes no number, so one constant stands for it). -/
def maxFieldLength : Nat := 200

/-- Modelled from the spec: the validity checks `NewJobStatus` applies
(`jobStatus/domain.go` is not in the sources).  Per spec §3:
`applicationId` and `jobId` non-empty and bounded; `jobStatusCode` a
member of the valid-code set; `jobStatusTimestamp` not in the future
(relative to `now`); `businessDate` not in the future and ≤ the date part
of `jobStatusTimestamp`; `runId`/`hostId` optional but bounded. -/
def isUsableJobStatusDto (now : Time) (dto : JobStatusDto) : Bool :=
  (dto.AppId.length != 0) && decide (dto.AppId.length ≤ maxFieldLength)
    && (dto.JobId.length != 0) && decide (dto.JobId.length ≤ maxFieldLength)
    && validJobStatusCodes.contains dto.JobSt
    && decide (dto.JobTs ≤ now)
    && decide (Date.AsTime dto.BusDt ≤ now)
    && decide (dto.BusDt ≤ NewDateFromTime dto.JobTs)
    && decide (dto.RunId.length ≤ maxFieldLength)
    && decide (dto.HstId.length ≤ maxFieldLength)

/-- Modelled from the spec: `jobStatus.NewJobStatus` (not in the sources),
the single construction/validation path for the domain record — validate
the DTO and build the immutable record, or fail with a `PropsError`
classified error carrying the offending DTO.  `now` stands for Go's
ambient `time.Now()` used by the not-in-the-future checks. -/
def NewJobStatus (now : Time) (dto : JobStatusDto) : Except GoError JobStatus :=
  if isUsableJobStatusDto now dto then
    .ok { ApplicationId := dto.AppId
          JobId := dto.JobId
          JobStatusCode := dto.JobSt
          JobStatusTimestamp := dto.JobTs
          BusinessDate := dto.BusDt
          RunId := dto.RunId
          HostId := dto.HstId }
  else
    .error (NewCommonError (callerProv "NewJobStatus" 0) (.primitive "props error")
      ErrcdDomainProps (.dtoData dto))

/-! ## The Mapper (`domainToDb`, `dbToDomain`, `rowsToDomain`) -/

/-- `domainToDb`: convert a `JobStatus` into the ordered value list for the
insert statement — ApplicationId, JobId, JobStatusCode,
JobStatusTimestamp, BusinessDate (as `time.Time`), RunId, HostId. -/
def domainToDb (jobStatus : JobStatus) : List DbValue :=
  [ .s jobStatus.ApplicationId,
    .s jobStatus.JobId,
    .s jobStatus.JobStatusCode,
    .t jobStatus.JobStatusTimestamp,
    .t (Date.AsTime jobStatus.BusinessDate),
    .s jobStatus.RunId,
    .s jobStatus.HostId ]

/-- `rows.Scan(&appId, &jobId, &jobSt, &jobTs, &busDt, &runId, &hstId)`
inside `dbToDomain`: read the row's values in the expected types and
order (string, string, string, timestamp, timestamp, string, string);
any other shape is a scan failure, reported as the driver's error text. -/
def scanRow (rw : Row) :
    Except String (String × String × String × Time × Time × String × String) :=
  match rw with
  | [.s appId, .s jobId, .s jobSt, .t jobTs, .t busDt, .s runId, .s hstId] =>
      .ok (appId, jobId, jobSt, jobTs, busDt, runId, hstId)
  | _ => .error "sql: Scan error: wrong column count or type mismatch"

/-- `dbToDomain`: scan one row and rebuild a `JobStatus` through
`NewJobStatus`.  A scan failure is classified `ErrcdRepoScan` with the
rows as data; otherwise the construction error (if any) is returned as-is.
(The Go function passes the `*sql.Rows` cursor as the error data; here the
current row stands for the cursor.) -/
def dbToDomain (now : Time) (rw : Row) : Except GoError JobStatus :=
  match scanRow rw with
  | .error msg =>
      .error (NewCommonError (callerProv "dbToDomain" 150) (.primitive msg)
        ErrcdRepoScan (.rowsData [rw]))
  | .ok (appId, jobId, jobSt, jobTs, busDt, runId, hstId) =>
      NewJobStatus now
        { AppId := appId
          JobId := jobId
          JobSt := jobSt
          JobTs := jobTs
          BusDt := NewDateFromTime busDt
          RunId := runId
          HstId := hstId }

/-- The `for rows.Next()` loop of `rowsToDomain`, with the accumulated
`result` slice explicit.  On the first row whose conversion fails the loop
returns `nil` and the wrapped failure, discarding the accumulator. -/
def rowsToDomainLoop (now : Time) (rows : List Row) (result : List JobStatus) :
    List JobStatus × Option GoError :=
  match rows with
  | [] => (result, none)
  | rw :: rest =>
      match dbToDomain now rw with
      | .error err => ([], some (WrapError (callerProv "rowsToDomain" 127) err))
      | .ok jobStatus => rowsToDomainLoop now rest (result ++ [jobStatus])

/-- `rowsToDomain`: convert a result set row by row via `dbToDomain`; if
any row fails, return `nil` and an error. -/
def rowsToDomain (now : Time) (rows : List Row) : List JobStatus × Option GoError :=
  rowsToDomainLoop now rows []

/-! ## SQL statement texts (`NewRepoDB`)

The single-line statements are transcribed exactly; in `sqlInsert` the Go
raw string's newlines and tab indentation are collapsed to single spaces
(only the token sequence matters to the claims). -/

def sqlInsertText : String :=
  "INSERT INTO \"JobStatus\" (\"ApplicationId\", \"JobId\", \"JobStatusCode\", \"JobStatusTimestamp\", \"BusinessDate\", \"RunId\", \"HostId\") VALUES($1, $2, $3, $4, $5, $6, $7)"

def sqlSelectText : String :=
  "SELECT \"ApplicationId\", \"JobId\", \"JobStatusCode\", \"JobStatusTimestamp\", \"BusinessDate\", \"RunId\", \"HostId\" FROM \"JobStatus\""

def sqlWhereJobIdText : String := "WHERE \"JobId\" = $1"

def sqlWhereJobIdBusDtText : String := "WHERE \"JobId\" = $1 AND \"BusinessDate\" = $2"

/-- Collect the double-quoted identifiers of a SQL statement, in order.
State: are we inside a quoted identifier, and the characters of the
current identifier collected so far (reversed). -/
def collectIdents : List Char → Bool → List Char → List String
  | [], _, _ => []
  | c :: rest, false, acc =>
      if c = '"' then collectIdents rest true [] else collectIdents rest false acc
  | c :: rest, true, acc =>
      if c = '"' then String.mk acc.reverse :: collectIdents rest false []
      else collectIdents rest true (c :: acc)

/-- The quoted identifiers appearing in a SQL statement text, in order. -/
def quotedIdents (s : String) : List String := collectIdents s.data false []

/-- The column order of the insert statement's parameter list (its quoted
identifiers minus the leading table name). -/
def insertColumns : List String := (quotedIdents sqlInsertText).drop 1

/-- The column order of the select statement's projection (its quoted
identifiers minus the trailing table name). -/
def selectColumns : List String := (quotedIdents sqlSelectText).dropLast

/-! ## The storage connection (`*sql.DB`) and the repository adapter -/

/-- The database reachable through an open `*sql.DB` handle: the rows of
the `JobStatus` table, plus the driver failure (if any) the next
`Query`/`Exec` call would surface (modelling outages).  The insert's
effect on the table is not modelled — no claim observes the table after
`Add`. -/
structure DBHandle where
  table : List Row
  queryErr : Option PgError
  execErr : Option PgError
deriving DecidableEq, Repr

/-- Does a stored row satisfy the `sqlWhereJobId` predicate? -/
def rowMatchesJobId (jobId : JobIdType) (rw : Row) : Bool :=
  decide (rw.get? 1 = some (DbValue.s jobId))

/-- Does a stored row satisfy the `sqlWhereJobIdBusDt` predicate? -/
def rowMatchesJobIdBusDt (jobId : JobIdType) (busDt : Time) (rw : Row) : Bool :=
  decide (rw.get? 1 = some (DbValue.s jobId)) && decide (rw.get? 4 = some (DbValue.t busDt))

/-- `repo.DB.Query(stmt, params...)`: Postgres executing one of the
adapter's select statements.  A pending driver failure surfaces as the
error; otherwise the two known statements filter the table by their
predicate; anything else is a statement the server rejects. -/
def DBHandle.query (db : DBHandle) (stmt : String) (params : List DbValue) :
    Except PgError (List Row) :=
  match db.queryErr with
  | some e => .error e
  | none =>
      if stmt = sqlSelectText ++ sqlWhereJobIdText then
        match params with
        | [.s jobId] => .ok (db.table.filter (rowMatchesJobId jobId))
        | _ => .error ⟨.other, "bind message supplies wrong parameters"⟩
      else if stmt = sqlSelectText ++ sqlWhereJobIdBusDtText then
        match params with
        | [.s jobId, .t busDt] => .ok (db.table.filter (rowMatchesJobIdBusDt jobId busDt))
        | _ => .error ⟨.other, "bind message supplies wrong parameters"⟩
      else .error ⟨.other, "syntax error"⟩

/-- `repo.DB.Exec(stmt, params...)`: Postgres executing the insert
statement.  A pending driver failure surfaces as the error; the insert's
effect on stored rows is outside the claims' scope. -/
def DBHandle.exec (db : DBHandle) (stmt : String) (params : List DbValue) :
    Except PgError Unit :=
  match db.execErr with
  | some e => .error e
  | none =>
      if stmt = sqlInsertText ∧ params.length = 7 then .ok ()
      else .error ⟨.other, "syntax error"⟩

/-- The repository adapter `repoDB`: DSN, the (possibly nil) `*sql.DB`
handle, and the prepared SQL statement strings. -/
structure RepoDB where
  DSN : String
  DB : Option DBHandle
  sqlInsert : String
  sqlSelect : String
  sqlWhereJobId : String
  sqlWhereJobIdBusDt : String
deriving DecidableEq, Repr

/-- `NewRepoDB(DSN)`: a repo with the DSN and the statement texts set and
no open handle. -/
def NewRepoDB (DSN : String) : RepoDB :=
  { DSN := DSN
    DB := none
    sqlInsert := sqlInsertText
    sqlSelect := sqlSelectText
    sqlWhereJobId := sqlWhereJobIdText
    sqlWhereJobIdBusDt := sqlWhereJobIdBusDtText }

/-- The Go runtime fault from calling a method through a nil `repo.DB`;
modelled as an error result so the operations stay total. -/
def nilHandleFault : GoError :=
  .primitive "runtime error: invalid memory address or nil pointer dereference"

namespace RepoDB

/-- `repoDB.Open`: fail with `NoDsnError` if the DSN is empty; otherwise
attempt the connection (`sql.Open`, whose outcome is the `openResult`
parameter), classifying a failure as `ConnectionExceptionError`, and on
success set `repo.DB` — the only receiver mutation in the adapter. -/
def Open (repo : RepoDB) (openResult : Except PgError DBHandle) :
    Option GoError × RepoDB :=
  if repo.DSN = "" then
    (some (NewCommonError (callerProv "Open" 47) (.primitive "no DSN error")
      ErrcdRepoNoDsn .noData), repo)
  else
    match openResult with
    | .error e =>
        (some (NewCommonError (callerProv "Open" 52) (.pgErr e)
          ErrcdRepoConnException .noData), repo)
    | .ok db => (none, { repo with DB := some db })

/-- `repoDB.Close`: close the handle if one is open (`closeResult` is what
`repo.DB.Close()` returns), a no-op otherwise; the receiver is unchanged
either way. -/
def Close (repo : RepoDB) (closeResult : Option GoError) :
    Option GoError × RepoDB :=
  match repo.DB with
  | some _ => (closeResult, repo)
  | none => (none, repo)

/-- `repoDB.Add`: insert one `JobStatus` via `Exec` with the values from
`domainToDb`; classify any driver failure (`PgErrToCommon`) into a
`CommonError` carrying the attempted record. -/
def Add (repo : RepoDB) (jobStatus : JobStatus) : Option GoError × RepoDB :=
  match repo.DB with
  | none => (some nilHandleFault, repo)
  | some db =>
      match db.exec repo.sqlInsert (domainToDb jobStatus) with
      | .error err =>
          (some (NewCommonError (callerProv "Add" 76) (.pgErr err)
            (PgErrToCommon err) (.jobStatusData jobStatus)), repo)
      | .ok _ => (none, repo)

/-- `repoDB.GetByJobId`: query by the fixed job-id predicate, convert the
result set via `rowsToDomain`.  A query failure is classified with the
jobId map as data; a conversion failure is propagated with `WrapError`. -/
def GetByJobId (repo : RepoDB) (now : Time) (jobId : JobIdType) :
    (List JobStatus × Option GoError) × RepoDB :=
  match repo.DB with
  | none => (([], some nilHandleFault), repo)
  | some db =>
      match db.query (repo.sqlSelect ++ repo.sqlWhereJobId) [.s jobId] with
      | .error err =>
          (([], some (NewCommonError (callerProv "GetByJobId" 88) (.pgErr err)
            (PgErrToCommon err) (.jobIdKey jobId))), repo)
      | .ok rows =>
          match rowsToDomain now rows with
          | (_, some err) =>
              (([], some (WrapError (callerProv "GetByJobId" 95) err)), repo)
          | (data, none) => ((data, none), repo)

/-- `repoDB.GetByJobIdBusinessDate`: query by the compound fixed
predicate (`time.Time(busDt)` as the second parameter), convert via
`rowsToDomain`; failures as in `GetByJobId` with the jobId/busDt map as
query-failure data. -/
def GetByJobIdBusinessDate (repo : RepoDB) (now : Time) (jobId : JobIdType)
    (busDt : Date) : (List JobStatus × Option GoError) × RepoDB :=
  match repo.DB with
  | none => (([], some nilHandleFault), repo)
  | some db =>
      match db.query (repo.sqlSelect ++ repo.sqlWhereJobIdBusDt)
          [.s jobId, .t (Date.AsTime busDt)] with
      | .error err =>
          (([], some (NewCommonError (callerProv "GetByJobIdBusinessDate" 106) (.pgErr err)
            (PgErrToCommon err) (.jobIdBusDtKey jobId busDt))), repo)
      | .ok rows =>
          match rowsToDomain now rows with
          | (_, some err) =>
              (([], some (WrapError (callerProv "GetByJobIdBusinessDate" 113) err)), repo)
          | (data, none) => ((data, none), repo)

end RepoDB

/-! ## The Predicate Builder / `GetByQuery` path (modelled from the spec) -/

/-- Modelled from the spec: the Predicate Builder's usability rule — the
filter set is usable only if at least one of {applicationId, jobId} is
present and at least one of {jobStatusTimestamp, businessDate} is present
(`GetByQuery` and its query builder are not in the sources). -/
def isUsableFilterSet (fs : FilterSet) : Bool :=
  (fs.applicationId.isSome || fs.jobId.isSome) &&
    (fs.jobStatusTimestamp.isSome || fs.businessDate.isSome)

/-- The `InvalidQueryError` classified error the Predicate Builder fails
with, carrying the offending filter set. -/
def invalidQueryErrFor (fs : FilterSet) : GoError :=
  NewCommonError (callerProv "GetByQuery" 0) (.primitive "invalid query error")
    ErrcdRepoInvalidQuery (.queryData fs)

/-- Does a stored row satisfy the conjunctive equality predicate built
from the present fields of a filter set?  (An absent field constrains
nothing.) -/
def rowMatchesFilterSet (fs : FilterSet) (rw : Row) : Bool :=
  (fs.applicationId.all fun v => decide (rw.get? 0 = some (DbValue.s v))) &&
    (fs.jobId.all fun v => decide (rw.get? 1 = some (DbValue.s v))) &&
    (fs.jobStatusCode.all fun v => decide (rw.get? 2 = some (DbValue.s v))) &&
    (fs.jobStatusTimestamp.all fun v => decide (rw.get? 3 = some (DbValue.t v))) &&
    (fs.businessDate.all fun v => decide (rw.get? 4 = some (DbValue.t (Date.AsTime v)))) &&
    (fs.runId.all fun v => decide (rw.get? 5 = some (DbValue.s v))) &&
    (fs.hostId.all fun v => decide (rw.get? 6 = some (DbValue.s v)))

/-- Modelled from the spec: `repoDB.GetByQuery` (not in the sources) —
run the Predicate Builder; on rejection fail immediately with
`InvalidQueryError` without touching storage; on acceptance execute the
built equality predicate and proceed exactly as `GetByJobId` (query
failures classified with the filter set as data, conversion failures
propagated with `WrapError`). -/
def RepoDB.GetByQuery (repo : RepoDB) (now : Time) (fs : FilterSet) :
    (List JobStatus × Option GoError) × RepoDB :=
  if isUsableFilterSet fs then
    match repo.DB with
    | none => (([], some nilHandleFault), repo)
    | some db =>
        match db.queryErr with
        | some err =>
            (([], some (NewCommonError (callerProv "GetByQuery" 1) (.pgErr err)
              (PgErrToCommon err) (.queryData fs))), repo)
        | none =>
            match rowsToDomain now (db.table.filter (rowMatchesFilterSet fs)) with
            | (_, some err) =>
                (([], some (WrapError (callerProv "GetByQuery" 2) err)), repo)
            | (data, none) => ((data, none), repo)
  else
    (([], some (invalidQueryErrFor fs)), repo)

/-! ## Concrete instances used by witnesses and the counterexample -/

/-- A valid DTO: day-2 business date, timestamp at day-2 midnight. -/
def dtoW : JobStatusDto :=
  { AppId := "App1", JobId := "J1", JobSt := "START", JobTs := 172800, BusDt := 2,
    RunId := "Run1", HstId := "Host1" }

/-- The record `NewJobStatus` builds from `dtoW`. -/
def jsW : JobStatus :=
  { ApplicationId := "App1", JobId := "J1", JobStatusCode := "START",
    JobStatusTimestamp := 172800, BusinessDate := 2, RunId := "Run1", HostId := "Host1" }

/-- The classified error `dbToDomain` produces for the empty (unscannable) row. -/
def eScanW : GoError :=
  NewCommonError (callerProv "dbToDomain" 150)
    (GoError.primitive "sql: Scan error: wrong column count or type mismatch")
    ErrcdRepoScan (ErrData.rowsData [[]])

/-- A DTO that scans fine but fails domain validation (unknown status code). -/
def dtoBogusW : JobStatusDto :=
  { AppId := "App1", JobId := "J1", JobSt := "BOGUS", JobTs := 172800, BusDt := 2,
    RunId := "Run1", HstId := "Host1" }

/-- The propagated construction error for `dtoBogusW`. -/
def ePropsW : GoError :=
  NewCommonError (callerProv "NewJobStatus" 0) (GoError.primitive "props error")
    ErrcdDomainProps (ErrData.dtoData dtoBogusW)

/-- An empty, reachable database. -/
def dbEmptyW : DBHandle := { table := [], queryErr := none, execErr := none }

/-- An unreachable database: every query fails with a connection exception. -/
def dbDownW : DBHandle :=
  { table := [], queryErr := some ⟨.connException, "connection refused"⟩, execErr := none }

/-- A filter set with only `jobId` present (rejected by the usability rule). -/
def fsOnlyJobIdW : FilterSet :=
  { applicationId := none, jobId := some "J1", jobStatusCode := none,
    jobStatusTimestamp := none, businessDate := none, runId := none, hostId := none }

/-- A stored row with too few columns: scanning it fails. -/
def malformedRow : Row := [DbValue.s "x", DbValue.s "J1"]

/-- A database whose only `JobId = "J1"` row is malformed. -/
def dbWithMalformedRow : DBHandle :=
  { table := [malformedRow], queryErr := none, execErr := none }

/-- An opened repo over that database. -/
def repoWithMalformedRow : RepoDB :=
  { NewRepoDB "postgres://test" with DB := some dbWithMalformedRow }

/-! ## Helper lemmas -/

/-- Truncating the midnight instant of a date back to a date is the
identity: the `BusinessDate` survives the row trip through
`AsTime` / `NewDateFromTime`. -/
theorem newDateFromTime_asTime (d : Date) : NewDateFromTime (Date.AsTime d) = d := by
  simp [NewDateFromTime, Date.AsTime, secondsPerDay]

/-- If the loop of `rowsToDomain` ends with an error, the returned record
list is `nil`, whatever had accumulated. -/
theorem rowsToDomainLoop_err_nil (now : Time) :
    ∀ (rows : List Row) (acc : List JobStatus) (e : GoError),
      (rowsToDomainLoop now rows acc).2 = some e → (rowsToDomainLoop now rows acc).1 = [] := by
  intro rows
  induction rows with
  | nil => intro acc e h; simp [rowsToDomainLoop] at h
  | cons rw rest ih =>
      intro acc e h
      unfold rowsToDomainLoop at h ⊢
      cases hd : dbToDomain now rw with
      | error err => simp [hd]
      | ok js => simp [hd] at h ⊢; exact ih _ e h

/-- The loop of `rowsToDomain` stops at the first failing row: rows whose
conversion succeeds are consumed, and the first failure makes the loop
return `nil` and that failure wrapped, whatever follows. -/
theorem rowsToDomainLoop_first_failure (now : Time) (r : Row) (e0 : GoError)
    (hr : dbToDomain now r = .error e0) :
    ∀ (pre : List Row) (acc : List JobStatus),
      (∀ rw ∈ pre, ∃ js, dbToDomain now rw = .ok js) →
      ∀ post : List Row,
        rowsToDomainLoop now (pre ++ r :: post) acc =
          ([], some (WrapError (callerProv "rowsToDomain" 127) e0)) := by
  intro pre
  induction pre with
  | nil =>
      intro acc _ post
      unfold rowsToDomainLoop
      simp [hr]
  | cons rw rest ih =>
      intro acc hpre post
      obtain ⟨js, hjs⟩ := hpre rw (List.mem_cons_self rw rest)
      unfold rowsToDomainLoop
      simp only [List.cons_append, hjs]
      exact ih _ (fun rw' hrw' => hpre rw' (List.mem_cons_of_mem _ hrw')) post

/-- An error out of `dbToDomain` is classified either `ScanError` (the
scan broke) or `PropsError` (the domain constructor rejected the data). -/
theorem dbToDomain_error_code (now : Time) (rw : Row) (e : GoError)
    (h : dbToDomain now rw = .error e) :
    errCodeOf e = some ErrcdRepoScan ∨ errCodeOf e = some ErrcdDomainProps := by
  unfold dbToDomain at h
  cases hs : scanRow rw with
  | error msg =>
      rw [hs] at h
      simp only [Except.error.injEq] at h
      subst h; exact Or.inl rfl
  | ok flds =>
      rw [hs] at h
      obtain ⟨appId, jobId, jobSt, jobTs, busDt, runId, hstId⟩ := flds
      simp only at h
      unfold NewJobStatus at h
      split at h
      · exact absurd h (by simp)
      · simp only [Except.error.injEq] at h
        subst h; exact Or.inr rfl

/-- An error out of the loop of `rowsToDomain` carries a `ScanError` or
`PropsError` classification (the `WrapError` wrapper changes neither). -/
theorem rowsToDomainLoop_error_code (now : Time) :
    ∀ (rows : List Row) (acc : List JobStatus) (e : GoError),
      (rowsToDomainLoop now rows acc).2 = some e →
      errCodeOf e = some ErrcdRepoScan ∨ errCodeOf e = some ErrcdDomainProps := by
  intro rows
  induction rows with
  | nil => intro acc e h; simp [rowsToDomainLoop] at h
  | cons rw rest ih =>
      intro acc e h
      unfold rowsToDomainLoop at h
      cases hd : dbToDomain now rw with
      | error err =>
          rw [hd] at h
          simp only [Option.some.injEq] at h
          subst h
          have := dbToDomain_error_code now rw err hd
          simpa [WrapError, errCodeOf, firstCommon] using this
      | ok js =>
          rw [hd] at h
          exact ih _ e h

/-- An error out of `rowsToDomain` carries a `ScanError` or `PropsError`
classification. -/
theorem rowsToDomain_error_code (now : Time) (rows : List Row) (e : GoError)
    (h : (rowsToDomain now rows).2 = some e) :
    errCodeOf e = some ErrcdRepoScan ∨ errCodeOf e = some ErrcdDomainProps :=
  rowsToDomainLoop_error_code now rows [] e h

/-- On every branch, `GetByJobId` returns an empty record list or no
error. -/
theorem getByJobId_shape (repo : RepoDB) (now : Time) (jobId : JobIdType) :
    (repo.GetByJobId now jobId).1.1 = [] ∨ (repo.GetByJobId now jobId).1.2 = none := by
  unfold RepoDB.GetByJobId
  rcases repo.DB with _ | db
  · left; rfl
  · simp only
    rcases db.query (repo.sqlSelect ++ repo.sqlWhereJobId) [DbValue.s jobId] with err | rows
    · left; rfl
    · simp only
      rcases rowsToDomain now rows with ⟨data, _ | err2⟩
      · right; rfl
      · left; rfl

/-- On every branch, `GetByJobIdBusinessDate` returns an empty record list
or no error. -/
theorem getByJobIdBusinessDate_shape (repo : RepoDB) (now : Time) (jobId : JobIdType)
    (busDt : Date) :
    (repo.GetByJobIdBusinessDate now jobId busDt).1.1 = [] ∨
    (repo.GetByJobIdBusinessDate now jobId busDt).1.2 = none := by
  unfold RepoDB.GetByJobIdBusinessDate
  rcases repo.DB with _ | db
  · left; rfl
  · simp only
    rcases db.query (repo.sqlSelect ++ repo.sqlWhereJobIdBusDt)
        [DbValue.s jobId, DbValue.t (Date.AsTime busDt)] with err | rows
    · left; rfl
    · simp only
      rcases rowsToDomain now rows with ⟨data, _ | err2⟩
      · right; rfl
      · left; rfl

/-! ## The claims -/

/-- C1: for every valid `JobStatusRecord` `r` (one `NewJobStatus` built
from some DTO), mapping `r` to the seven-value row with `domainToDb` and
reconstructing a record from those values via `dbToDomain`'s construction
path (`NewJobStatus` from the scanned fields) yields a record equal to
`r`. -/
theorem C1_mapper_round_trip (now : Time) (dto : JobStatusDto) (r : JobStatus)
    (h : NewJobStatus now dto = .ok r) :
    dbToDomain now (domainToDb r) = .ok r := by
  obtain ⟨a, b, c, ts, bd, ri, hi⟩ := dto
  unfold NewJobStatus at h
  split at h
  case isTrue hu =>
    simp only [Except.ok.injEq] at h
    subst h
    simp only [dbToDomain, domainToDb, scanRow]
    rw [show NewDateFromTime (Date.AsTime bd) = bd from newDateFromTime_asTime bd]
    simp [NewJobStatus, hu]
  case isFalse => exact absurd h (by simp)

theorem C1_witness :
    NewJobStatus 200000 dtoW = .ok jsW ∧ dbToDomain 200000 (domainToDb jsW) = .ok jsW :=
  ⟨rfl, C1_mapper_round_trip 200000 dtoW jsW rfl⟩

/-- C2: the insert-side value order emitted by `domainToDb` and the
read-side scan order consumed by `dbToDomain` are the identical
seven-column sequence ApplicationId, JobId, JobStatusCode,
JobStatusTimestamp, BusinessDate, RunId, HostId, matching the column
order of both the insert statement's parameters and the select
statement's projection: the value `domainToDb` puts in position N is the
field the scanner reads from position N. -/
theorem C2_column_order (r : JobStatus) :
    insertColumns = selectColumns ∧
    insertColumns = ["ApplicationId", "JobId", "JobStatusCode", "JobStatusTimestamp",
      "BusinessDate", "RunId", "HostId"] ∧
    scanRow (domainToDb r) = .ok (r.ApplicationId, r.JobId, r.JobStatusCode,
      r.JobStatusTimestamp, Date.AsTime r.BusinessDate, r.RunId, r.HostId) := by
  refine ⟨by decide, by decide, rfl⟩

/-- C3: the `GetByQuery` path accepts a filter set iff (applicationId
present OR jobId present) AND (jobStatusTimestamp present OR businessDate
present); on rejection it fails with an `InvalidQueryError` carrying the
filter set, returns no records, and its outcome is independent of the
storage handle (no storage call is issued); on acceptance no returned
error carries the `InvalidQueryError` code. -/
theorem C3_usability_rule (fs : FilterSet) (repo : RepoDB) (now : Time) :
    (((fs.applicationId.isSome || fs.jobId.isSome) &&
        (fs.jobStatusTimestamp.isSome || fs.businessDate.isSome)) = false →
      (repo.GetByQuery now fs).1 = ([], some (invalidQueryErrFor fs)) ∧
      errCodeOf (invalidQueryErrFor fs) = some ErrcdRepoInvalidQuery ∧
      errDataOf (invalidQueryErrFor fs) = some (ErrData.queryData fs) ∧
      ∀ db' : Option DBHandle,
        (({ repo with DB := db' } : RepoDB).GetByQuery now fs).1 =
          ([], some (invalidQueryErrFor fs))) ∧
    (((fs.applicationId.isSome || fs.jobId.isSome) &&
        (fs.jobStatusTimestamp.isSome || fs.businessDate.isSome)) = true →
      ∀ e, (repo.GetByQuery now fs).1.2 = some e →
        errCodeOf e ≠ some ErrcdRepoInvalidQuery) := by
  constructor
  · intro hrule
    have hu : isUsableFilterSet fs = false := hrule
    refine ⟨?_, rfl, rfl, ?_⟩
    · simp [RepoDB.GetByQuery, hu]
    · intro db'
      simp [RepoDB.GetByQuery, hu]
  · intro hrule e h
    have hu : isUsableFilterSet fs = true := hrule
    unfold RepoDB.GetByQuery at h
    rw [hu] at h
    simp only [if_true] at h
    rcases hdb : repo.DB with _ | db
    · rw [hdb] at h
      simp only [Option.some.injEq] at h
      subst h
      intro hc
      simp [nilHandleFault, errCodeOf, firstCommon] at hc
    · rw [hdb] at h
      simp only at h
      rcases hq : db.queryErr with _ | err
      · rw [hq] at h
        simp only at h
        rcases hr : rowsToDomain now (db.table.filter (rowMatchesFilterSet fs))
          with ⟨data, _ | err2⟩ <;> rw [hr] at h
        · simp at h
        · simp only [Option.some.injEq] at h
          subst h
          have := rowsToDomain_error_code now _ err2 (by rw [hr])
          rcases this with hc | hc <;>
            · intro hbad
              rw [show errCodeOf (WrapError (callerProv "GetByQuery" 2) err2) = errCodeOf err2
                from rfl] at hbad
              rw [hc] at hbad
              simp only [Option.some.injEq] at hbad
              revert hbad
              decide
      · rw [hq] at h
        simp only [Option.some.injEq] at h
        subst h
        intro hbad
        have : PgErrToCommon err = ErrcdRepoInvalidQuery := by
          simpa [errCodeOf, firstCommon, NewCommonError] using hbad
        revert this
        unfold PgErrToCommon
        rcases err.kind <;> decide

theorem C3_witness :
    ((NewRepoDB "postgres://test").GetByQuery 0 fsOnlyJobIdW).1 =
      ([], some (invalidQueryErrFor fsOnlyJobIdW)) ∧
    errCodeOf (invalidQueryErrFor fsOnlyJobIdW) = some ErrcdRepoInvalidQuery :=
  ⟨((C3_usability_rule fsOnlyJobIdW (NewRepoDB "postgres://test") 0).1 (by decide)).1,
   ((C3_usability_rule fsOnlyJobIdW (NewRepoDB "postgres://test") 0).1 (by decide)).2.1⟩

/-- C4: `rowsToDomain` returns no partial results: on a result set whose
rows convert fine up to a first failing row, it returns the empty (nil)
list together with that row's failure wrapped — and in general, whenever
it returns an error, the returned record list is empty. -/
theorem C4_no_partial_results (now : Time) (pre post : List Row) (r : Row) (e0 : GoError)
    (hpre : ∀ rw ∈ pre, ∃ js, dbToDomain now rw = .ok js)
    (hr : dbToDomain now r = .error e0) :
    rowsToDomain now (pre ++ r :: post) =
      ([], some (WrapError (callerProv "rowsToDomain" 127) e0)) ∧
    ∀ (rows : List Row) (e : GoError),
      (rowsToDomain now rows).2 = some e → (rowsToDomain now rows).1 = [] := by
  refine ⟨rowsToDomainLoop_first_failure now r e0 hr pre [] hpre post, ?_⟩
  intro rows e h
  exact rowsToDomainLoop_err_nil now rows [] e h

theorem C4_witness :
    rowsToDomain 200000 [domainToDb jsW, []] =
      ([], some (WrapError (callerProv "rowsToDomain" 127) eScanW)) :=
  (C4_no_partial_results 200000 [domainToDb jsW] [] [] eScanW
    (by intro rw hrw
        simp only [List.mem_singleton] at hrw
        subst hrw
        exact ⟨jsW, rfl⟩)
    rfl).1

/-- C5: on a reachable database where the fixed predicates match zero
rows, `GetByJobId` and `GetByJobIdBusinessDate` both return an empty
result list and no error — "not found" is success at this layer. -/
theorem C5_zero_rows_is_success (dsn : String) (db : DBHandle) (now : Time)
    (jobId : JobIdType) (busDt : Date)
    (hok : db.queryErr = none)
    (h1 : db.table.filter (rowMatchesJobId jobId) = [])
    (h2 : db.table.filter (rowMatchesJobIdBusDt jobId (Date.AsTime busDt)) = []) :
    (({ NewRepoDB dsn with DB := some db } : RepoDB).GetByJobId now jobId).1 = ([], none) ∧
    (({ NewRepoDB dsn with DB := some db } : RepoDB).GetByJobIdBusinessDate now jobId busDt).1
      = ([], none) := by
  constructor
  · unfold RepoDB.GetByJobId
    simp [NewRepoDB, DBHandle.query, hok, h1, rowsToDomain, rowsToDomainLoop]
  · unfold RepoDB.GetByJobIdBusinessDate
    have hne : sqlSelectText ++ sqlWhereJobIdBusDtText ≠ sqlSelectText ++ sqlWhereJobIdText := by
      decide
    simp [NewRepoDB, DBHandle.query, hok, h2, hne, rowsToDomain, rowsToDomainLoop]

theorem C5_witness :
    (({ NewRepoDB "postgres://test" with DB := some dbEmptyW } : RepoDB).GetByJobId
      0 "J1").1 = ([], none) ∧
    (({ NewRepoDB "postgres://test" with DB := some dbEmptyW } : RepoDB).GetByJobIdBusinessDate
      0 "J1" 2).1 = ([], none) :=
  C5_zero_rows_is_success "postgres://test" dbEmptyW 0 "J1" 2 rfl rfl rfl

/-- C6: in `dbToDomain`, a row whose values cannot be read in the
expected types/order fails with an error classified `ScanError`, while a
row that scans but fails domain invariants propagates the construction
error classified `PropsError`, which is not `ScanError`. -/
theorem C6_scan_vs_validity (now : Time) (rw : Row) (e : GoError)
    (h : dbToDomain now rw = .error e) :
    ((∃ msg, scanRow rw = .error msg) → errCodeOf e = some ErrcdRepoScan) ∧
    (∀ flds, scanRow rw = .ok flds →
      errCodeOf e = some ErrcdDomainProps ∧ ErrcdDomainProps ≠ ErrcdRepoScan) := by
  unfold dbToDomain at h
  constructor
  · rintro ⟨msg, hmsg⟩
    rw [hmsg] at h
    simp only [Except.error.injEq] at h
    subst h
    rfl
  · intro flds hflds
    rw [hflds] at h
    obtain ⟨appId, jobId, jobSt, jobTs, busDt, runId, hstId⟩ := flds
    simp only at h
    unfold NewJobStatus at h
    split at h
    · exact absurd h (by simp)
    · simp only [Except.error.injEq] at h
      subst h
      exact ⟨rfl, by decide⟩

theorem C6_witness :
    errCodeOf eScanW = some ErrcdRepoScan ∧
    errCodeOf ePropsW = some ErrcdDomainProps ∧ ErrcdDomainProps ≠ ErrcdRepoScan :=
  ⟨(C6_scan_vs_validity 0 [] eScanW rfl).1
      ⟨"sql: Scan error: wrong column count or type mismatch", rfl⟩,
   (C6_scan_vs_validity 200000 (domainToDb
      { ApplicationId := "App1", JobId := "J1", JobStatusCode := "BOGUS",
        JobStatusTimestamp := 172800, BusinessDate := 2, RunId := "Run1", HostId := "Host1" })
      ePropsW rfl).2
      ("App1", "J1", "BOGUS", 172800, 172800, "Run1", "Host1") rfl⟩

/-- C7 (counterexample): querying `GetByJobId "J1"` over a database whose
matching row cannot be scanned fails, but the returned error's classified
data payload is the rows — not the queried key `"J1"` — refuting the
claim that every failure path carries the key as payload. -/
theorem C7_counterexample :
    (repoWithMalformedRow.GetByJobId 0 "J1").1.2.isSome = true ∧
    (repoWithMalformedRow.GetByJobId 0 "J1").1.2.bind errDataOf ≠
      some (ErrData.jobIdKey "J1") ∧
    (repoWithMalformedRow.GetByJobId 0 "J1").1.2.bind errDataOf =
      some (ErrData.rowsData [malformedRow]) := by
  refine ⟨by decide, by decide, by decide⟩

/-- C7 (amended): when `GetByJobId`'s query execution fails, it returns a
classified error carrying the queried jobId as its data payload; when row
scanning/conversion fails, it instead returns the conversion error
wrapped with the call site's provenance, whose payload is the rows or
domain data rather than the key. -/
theorem C7_failure_payloads (dsn : String) (db : DBHandle) (now : Time) (jobId : JobIdType) :
    (∀ err, db.queryErr = some err →
      (({ NewRepoDB dsn with DB := some db } : RepoDB).GetByJobId now jobId).1 =
        ([], some (NewCommonError (callerProv "GetByJobId" 88) (.pgErr err)
          (PgErrToCommon err) (.jobIdKey jobId)))) ∧
    (db.queryErr = none →
      ∀ e, (({ NewRepoDB dsn with DB := some db } : RepoDB).GetByJobId now jobId).1.2 = some e →
        ∃ e0, e = WrapError (callerProv "GetByJobId" 95) e0 ∧
          (rowsToDomain now (db.table.filter (rowMatchesJobId jobId))).2 = some e0) := by
  constructor
  · intro err herr
    simp [RepoDB.GetByJobId, NewRepoDB, DBHandle.query, herr]
  · intro hok e h
    unfold RepoDB.GetByJobId at h
    simp only [NewRepoDB, DBHandle.query, hok] at h
    rcases hr : rowsToDomain now (db.table.filter (rowMatchesJobId jobId))
        with ⟨data, _ | err2⟩
    · simp only [if_true] at h
      rw [hr] at h
      simp at h
    · simp only [if_true] at h
      rw [hr] at h
      simp only [Option.some.injEq] at h
      subst h
      exact ⟨err2, rfl, rfl⟩

theorem C7_witness :
    (({ NewRepoDB "postgres://test" with DB := some dbDownW } : RepoDB).GetByJobId
      0 "J1").1 =
    ([], some (NewCommonError (callerProv "GetByJobId" 88)
      (.pgErr ⟨.connException, "connection refused"⟩)
      (PgErrToCommon ⟨.connException, "connection refused"⟩) (.jobIdKey "J1"))) :=
  (C7_failure_payloads "postgres://test" dbDownW 0 "J1").1
    ⟨.connException, "connection refused"⟩ rfl

/-- C8: re-wrapping an error with `WrapError` (no new classification)
preserves the original error's kind — the wrapped error is recoverable
through the unwrap chain, its classification code and data are unchanged
— and appends the wrapping call site's provenance in front of the
original provenance instead of discarding it. -/
theorem C8_wrap_preserves_kind (prov : Provenance) (err : GoError) :
    (WrapError prov err).unwrap = some err ∧
    errCodeOf (WrapError prov err) = errCodeOf err ∧
    errDataOf (WrapError prov err) = errDataOf err ∧
    provListOf (WrapError prov err) = prov :: provListOf err :=
  ⟨rfl, rfl, rfl, rfl⟩

/-- C9: `Add`, `GetByJobId`, `GetByJobIdBusinessDate` and `Close` leave
every field of the repo (DSN, DB handle, prepared SQL statement strings)
unchanged — the connection handle is mutated only by `Open`. -/
theorem C9_only_open_mutates (repo : RepoDB) (now : Time) (js : JobStatus)
    (jobId : JobIdType) (busDt : Date) (closeResult : Option GoError) :
    (repo.Add js).2 = repo ∧
    (repo.GetByJobId now jobId).2 = repo ∧
    (repo.GetByJobIdBusinessDate now jobId busDt).2 = repo ∧
    (repo.Close closeResult).2 = repo := by
  refine ⟨?_, ?_, ?_, ?_⟩
  · unfold RepoDB.Add
    rcases repo.DB with _ | db
    · rfl
    · simp only
      split <;> rfl
  · unfold RepoDB.GetByJobId
    rcases repo.DB with _ | db
    · rfl
    · simp only
      split
      · rfl
      · split <;> rfl
  · unfold RepoDB.GetByJobIdBusinessDate
    rcases repo.DB with _ | db
    · rfl
    · simp only
      split
      · rfl
      · split <;> rfl
  · unfold RepoDB.Close
    rcases repo.DB with _ | db <;> rfl

/-- C10: whenever `GetByJobId` or `GetByJobIdBusinessDate` returns an
error, the returned record list is nil: a caller never receives both
records and an error from the same call, on any failure path. -/
theorem C10_no_mixed_result (repo : RepoDB) (now : Time) (jobId : JobIdType) (busDt : Date) :
    (∀ e, (repo.GetByJobId now jobId).1.2 = some e → (repo.GetByJobId now jobId).1.1 = []) ∧
    (∀ e, (repo.GetByJobIdBusinessDate now jobId busDt).1.2 = some e →
      (repo.GetByJobIdBusinessDate now jobId busDt).1.1 = []) := by
  constructor
  · intro e h
    rcases getByJobId_shape repo now jobId with h1 | h2
    · exact h1
    · rw [h2] at h; cases h
  · intro e h
    rcases getByJobIdBusinessDate_shape repo now jobId busDt with h1 | h2
    · exact h1
    · rw [h2] at h; cases h

theorem C10_witness :
    ((NewRepoDB "postgres://test").GetByJobId 0 "J1").1.1 = [] ∧
    ((NewRepoDB "postgres://test").GetByJobIdBusinessDate 0 "J1" 2).1.1 = [] :=
  ⟨(C10_no_mixed_result (NewRepoDB "postgres://test") 0 "J1" 2).1 nilHandleFault rfl,
   (C10_no_mixed_result (NewRepoDB "postgres://test") 0 "J1" 2).2 nilHandleFault rfl⟩
